import Mathlib

/-!
Verification development for the nutri-cluster preprocessing and
recommendation pipeline (`src/preprocess.py`).

The pipeline is embedded shallowly:
* a pandas `DataFrame` becomes `DataFrame` below: a list of column names
  plus one association list (column name to cell) per row; a missing key
  in a row plays the role of a `NaN` cell;
* a scalar cell is `Cell`: null (`None`/`NaN`/`NaT`), a string, an
  integer, or a datetime value (datetimes are kept as a tagged copy of
  the text they were parsed from, since no claim depends on the
  value-level behaviour of `pd.to_datetime`);
* the regular expressions of `NUTRI_KEYWORDS` use only literal
  characters, `\s*` and `-?` inside a single non-capturing alternation,
  so they are embedded as an explicit alternation of item lists
  (`RItem`) with an executable matcher;
* Python `str.lower` is embedded on the ASCII uppercase range (the
  keyword configuration and the data this pipeline targets contain only
  ASCII letters, digits and Korean, and Korean has no case), and `\s` /
  whitespace is the ASCII whitespace class;
* `Series.sort_values(ascending=False)` is embedded as a stable
  descending sort, which is what pandas' double-reversal `nargsort`
  produces whenever the underlying numpy sort is stable (always the
  case for frames of at most 16 rows, where numpy introsort is plain
  insertion sort);
* the in-place/copy behaviour of the two entry points is embedded
  separately as explicit state passing over a heap of frames, so that
  non-mutation of caller-supplied frames is a provable statement.
-/

/-- A scalar value held by one cell of a frame. -/
inductive Cell where
  | null
  | str (s : String)
  | int (n : Int)
  | date (s : String)
deriving DecidableEq, Repr

/-- One row of a frame: an association list from column name to cell. -/
abbrev Row := List (String × Cell)

/-- A pandas data frame: ordered column names plus one row per item. -/
structure DataFrame where
  cols : List String
  rows : List Row
deriving DecidableEq, Repr

/-- Reading a column of a row; a missing key is a `NaN` cell. -/
def getVal (r : Row) (c : String) : Cell :=
  (r.lookup c).getD Cell.null

/-- The ASCII whitespace class used for `\s` and `str.contains`. -/
def isWs (c : Char) : Bool :=
  c = ' ' || c = '\t' || c = '\n' || c = '\r' || c = '\x0b' || c = '\x0c'

/-- Python `str.lower`, on the ASCII uppercase range. -/
def lowerChar (c : Char) : Char :=
  if 65 ≤ c.toNat ∧ c.toNat ≤ 90 then Char.ofNat (c.toNat + 32) else c

/-- One pass of `re.sub(r"\s+", " ", s)`: the flag records whether the
scan is inside a whitespace run whose single output space was already
emitted. -/
def collapseGo : Bool → List Char → List Char
  | _, [] => []
  | inRun, c :: cs =>
    if isWs c then
      if inRun then collapseGo true cs else ' ' :: collapseGo true cs
    else c :: collapseGo false cs

/-- `re.sub(r"\s+", " ", s)`: every maximal whitespace run becomes one
space. -/
def collapseWs (l : List Char) : List Char := collapseGo false l

/-- Python `str()` of a cell that is not `None` (after `fillna`, `null`
never reaches this in the pipeline; stringified `NaN` is "nan"). -/
def cellToString : Cell → String
  | Cell.null => "nan"
  | Cell.str s => s
  | Cell.int n => toString n
  | Cell.date s => s

/-- The body of `_norm` on an actual string: lowercase, then collapse
whitespace runs. -/
def normStr (s : String) : String :=
  String.mk (collapseWs (s.data.map lowerChar))

/-- `_norm` from `preprocess.py`: `None` becomes `""`; any other value is
stringified, lowercased, and its whitespace runs are collapsed. -/
def _norm : Cell → String
  | Cell.null => ""
  | v => normStr (cellToString v)

/-- One item of a keyword regular expression: a literal character, the
fragment `\s*`, or an optional literal character (`x?`). -/
inductive RItem where
  | lit (c : Char)
  | wsStar
  | optChar (c : Char)
deriving DecidableEq, Repr

/-- A keyword pattern `(?:alt|alt|...)`: an alternation of item lists. -/
abbrev Pattern := List (List RItem)

/-- The literal items of a string. -/
def lits (s : String) : List RItem := s.data.map RItem.lit

/-- The suffixes of `ds` reachable by dropping zero or more leading
whitespace characters (the candidate continuations after `\s*`). -/
def wsSuffixes : List Char → List (List Char)
  | [] => [[]]
  | c :: cs => (c :: cs) :: (if isWs c then wsSuffixes cs else [])

/-- Does an alternative match a prefix of `ds`? -/
def matchItems : List RItem → List Char → Bool
  | [], _ => true
  | RItem.lit c :: is, ds =>
    match ds with
    | [] => false
    | d :: ds' => c == d && matchItems is ds'
  | RItem.optChar c :: is, ds =>
    (match ds with
     | d :: ds' => c == d && matchItems is ds'
     | [] => false) || matchItems is ds
  | RItem.wsStar :: is, ds => (wsSuffixes ds).any (fun tl => matchItems is tl)

/-- Does some alternative of the pattern match a prefix of `ds`? -/
def matchHere (p : Pattern) (ds : List Char) : Bool :=
  p.any (fun alt => matchItems alt ds)

/-- `re.search` as used by `Series.str.contains`: does the pattern match
at some position of the text? -/
def search (p : Pattern) : List Char → Bool
  | [] => matchHere p []
  | d :: ds => matchHere p (d :: ds) || search p ds

/-- `text.str.contains(pattern, regex=True)` on one text. -/
def strContains (p : Pattern) (t : String) : Bool := search p t.data

/-- `TEXT_CANDIDATES` from `preprocess.py`: candidate text columns. -/
def TEXT_CANDIDATES : List String :=
  ["PRDLST_NM", "PRDT_NM",
   "RAWMTRL_NM", "RAWMTRL", "RAWMTRL_CN",
   "PRIMARY_FNCLTY", "SKLL_IX_IRDNT_RAWMTRL",
   "IFTKN_ATNT_MATR_CN"]

/-- `META_KEEP` from `preprocess.py`: descriptive columns kept for the
meta frame. -/
def META_KEEP : List String :=
  ["PRDLST_NM", "BSSH_NM", "PRMS_DT", "CHNG_DT",
   "PRDLST_REPORT_NO", "LCNS_NO"]

/-- `NUTRI_KEYWORDS` from `preprocess.py`: each keyword's regular
expression, transcribed alternative by alternative. -/
def NUTRI_KEYWORDS : List (String × Pattern) :=
  [("vitamin_c", [lits "비타민" ++ [RItem.wsStar] ++ lits "c",
                  lits "vitamin" ++ [RItem.wsStar] ++ lits "c",
                  lits "ascorbic"]),
   ("vitamin_b", [lits "비타민" ++ [RItem.wsStar] ++ lits "b",
                  lits "vitamin" ++ [RItem.wsStar] ++ lits "b",
                  lits "b1", lits "b2", lits "b6", lits "b12",
                  lits "비오틴", lits "나이아신", lits "판토텐산", lits "엽산"]),
   ("vitamin_d", [lits "비타민" ++ [RItem.wsStar] ++ lits "d",
                  lits "vitamin" ++ [RItem.wsStar] ++ lits "d"]),
   ("zinc", [lits "아연", lits "zinc"]),
   ("magnesium", [lits "마그네슘", lits "magnesium"]),
   ("iron", [lits "철", lits "iron"]),
   ("folate", [lits "엽산", lits "folate"]),
   ("selenium", [lits "셀레늄", lits "selenium"]),
   ("probiotics", [lits "프로바이오틱", lits "유산균", lits "lactobac",
                   lits "bifido", lits "probiotic"]),
   ("prebiotics", [lits "프리바이오틱", lits "이눌린", lits "inulin",
                   lits "프락토올리고당", lits "올리고당"]),
   ("lutein", [lits "루테인", lits "lutein", lits "지아잔틴", lits "zeaxanthin"]),
   ("astaxanthin", [lits "아스타잔틴", lits "astaxanthin"]),
   ("collagen", [lits "콜라겐", lits "collagen"]),
   ("hyaluronic", [lits "히알루론산", lits "hyaluronic"]),
   ("calcium", [lits "칼슘", lits "calcium"]),
   ("msm", [lits "msm", lits "엠에스엠"]),
   ("glucosamine", [lits "글루코사민", lits "glucosamine"]),
   ("chondroitin", [lits "콘드로이친", lits "chondroitin"]),
   ("omega3", [lits "오메가" ++ [RItem.wsStar] ++ lits "3",
               lits "omega" ++ [RItem.wsStar] ++ lits "3",
               lits "epa", lits "dha"]),
   ("coq10", [lits "코엔자임" ++ [RItem.wsStar] ++ lits "q10",
              lits "coq10", lits "유비퀴논"]),
   ("milk_thistle", [lits "밀크씨슬", lits "실리마린", lits "silymarin"]),
   ("red_ginseng", [lits "홍삼",
                    lits "red" ++ [RItem.wsStar] ++ lits "ginseng",
                    lits "진세노사이드"]),
   ("l_theanine", [lits "l" ++ [RItem.optChar '-'] ++ lits "테아닌",
                   lits "theanine"]),
   ("melatonin", [lits "멜라토닌", lits "melatonin"]),
   ("garcinia", [lits "가르시니아", lits "garcinia"]),
   ("green_tea", [lits "녹차",
                  lits "green" ++ [RItem.wsStar] ++ lits "tea",
                  lits "카테킨", lits "catechin"])]

/-- `NEED_TO_NUTRI` from `preprocess.py`: need key to keyword weights,
in insertion order. -/
def NEED_TO_NUTRI : List (String × List (String × Int)) :=
  [("fatigue", [("vitamin_c", 2), ("vitamin_b", 3), ("magnesium", 1),
                ("iron", 1), ("coq10", 2), ("red_ginseng", 3)]),
   ("immune", [("vitamin_c", 3), ("vitamin_d", 2), ("zinc", 2),
               ("selenium", 1), ("red_ginseng", 2)]),
   ("sleep", [("melatonin", 3), ("l_theanine", 2), ("magnesium", 1)]),
   ("gut", [("probiotics", 3), ("prebiotics", 2)]),
   ("eye", [("lutein", 3), ("astaxanthin", 2)]),
   ("liver", [("milk_thistle", 3)]),
   ("joint", [("glucosamine", 2), ("chondroitin", 2), ("msm", 1)]),
   ("diet", [("garcinia", 2), ("green_tea", 2)]),
   ("skin", [("collagen", 2), ("hyaluronic", 2), ("vitamin_c", 1)])]

/-- `Series.fillna("")` on one cell. -/
def fillnaStr (c : Cell) : Cell :=
  match c with
  | Cell.null => Cell.str ""
  | c => c

/-- `Series.fillna(0)` on one cell. -/
def fillnaZero (c : Cell) : Cell :=
  match c with
  | Cell.null => Cell.int 0
  | c => c

/-- `Series.astype(int)` on one cell; faithful on the integer cells that
the pipeline feeds it (after `fillna(0)` no null remains). -/
def cellInt : Cell → Int
  | Cell.int n => n
  | _ => 0

/-- The text of one row as built by `_merge_text`: the normalised
concatenation, each present candidate column preceded by one space. -/
def mergeRowText (cols : List String) (r : Row) : String :=
  TEXT_CANDIDATES.foldl
    (fun acc c =>
      if c ∈ cols then acc ++ " " ++ cellToString (fillnaStr (getVal r c)) else acc)
    ""

/-- `_merge_text` from `preprocess.py`: one normalised merged string per
row. -/
def _merge_text (df : DataFrame) : List String :=
  df.rows.map (fun r => _norm (Cell.str (mergeRowText df.cols r)))

/-- The indicator cell for one keyword pattern on one merged text:
`text.str.contains(pattern).astype(int)`. -/
def indicatorOf (p : Pattern) (t : String) : Int :=
  if strContains p t then 1 else 0

/-- The feature row built for one merged text, one indicator per
`NUTRI_KEYWORDS` entry in table order. -/
def featureRowOf (t : String) : Row :=
  NUTRI_KEYWORDS.map (fun kp => (kp.1, Cell.int (indicatorOf kp.2 t)))

/-- The full feature frame before filtering (`features` in
`preprocess_for_reco`). -/
def buildFeatures (texts : List String) : DataFrame :=
  { cols := NUTRI_KEYWORDS.map Prod.fst, rows := texts.map featureRowOf }

/-- `features.sum(axis=1)` for one row. -/
def rowIndicatorSum (r : Row) : Int :=
  (r.map (fun kv => cellInt kv.2)).sum

/-- The boolean mask `features.sum(axis=1) > 0`. -/
def maskOf (features : DataFrame) : List Bool :=
  features.rows.map (fun r => decide (0 < rowIndicatorSum r))

/-- `l.loc[mask]`: keep the entries whose mask bit is true. -/
def maskFilter (mask : List Bool) (l : List α) : List α :=
  ((mask.zip l).filter (fun p => p.1)).map Prod.snd

/-- `pd.to_datetime(c, errors="coerce")` on one cell, kept as a tagged
value: null (`NaN`) parses to `NaT` (null again), anything else to a
datetime derived from its text; no claim depends on the parse itself. -/
def parseDateCell : Cell → Cell
  | Cell.null => Cell.null
  | c => Cell.date (cellToString c)

/-- `df[c] = f(df[c])` for a column already present in the frame. -/
def mapCol (df : DataFrame) (c : String) (f : Cell → Cell) : DataFrame :=
  { df with
    rows := df.rows.map (fun r =>
      r.map (fun kv => if kv.1 = c then (kv.1, f kv.2) else kv)) }

/-- The date-parsing loop of `preprocess_for_reco`: `PRMS_DT` and
`CHNG_DT` are parsed when present. -/
def dateParsed (df : DataFrame) : DataFrame :=
  ["PRMS_DT", "CHNG_DT"].foldl
    (fun d c => if c ∈ d.cols then mapCol d c parseDateCell else d) df

/-- The meta columns kept: `META_KEEP ∩ df.columns`, with the
`PRDLST_NM`/`BSSH_NM` fallback when that intersection is empty. -/
def metaKeepCols (df : DataFrame) : List String :=
  let keep := META_KEEP.filter (fun c => c ∈ df.cols)
  if keep = [] then ["PRDLST_NM", "BSSH_NM"].filter (fun c => c ∈ df.cols)
  else keep

/-- `df.loc[mask, keep]` row projection onto the kept columns. -/
def projRow (keep : List String) (r : Row) : Row :=
  keep.map (fun c => (c, getVal r c))

/-- `preprocess_for_reco` from `preprocess.py` with `return_meta=True`
(the `return_meta=False` variant returns the first component only):
date columns are parsed on a copy, the candidate text columns are merged
and matched against `NUTRI_KEYWORDS`, and rows with no keyword hit are
dropped from the feature frame and the meta frame alike. -/
def preprocess_for_reco (df_raw : DataFrame) : DataFrame × DataFrame :=
  let df := dateParsed df_raw
  let features := buildFeatures (_merge_text df)
  let mask := maskOf features
  let features_df : DataFrame :=
    { cols := features.cols, rows := maskFilter mask features.rows }
  let keep := metaKeepCols df
  let meta_df : DataFrame :=
    { cols := keep, rows := maskFilter mask (df.rows.map (projRow keep)) }
  (features_df, meta_df)

/-- `df[c]` as a list of cells, one per row. -/
def getColCells (df : DataFrame) (c : String) : List Cell :=
  df.rows.map (fun r => getVal r c)

/-- The score series of `recommend_by_need`: starting from zero, each
profile entry whose keyword is a feature column contributes
`features_df[k].fillna(0).astype(int) * w`. -/
def needScores (fdf : DataFrame) (weights : List (String × Int)) : List Int :=
  weights.foldl
    (fun sc kw =>
      if kw.1 ∈ fdf.cols then
        List.zipWith (fun a cel => a + cellInt (fillnaZero cel) * kw.2) sc
          (getColCells fdf kw.1)
      else sc)
    (List.replicate fdf.rows.length 0)

/-- `df[c] = vals` (positional, as `out["score"] = score.values` is):
replace the column when present, append it otherwise. -/
def setColVals (df : DataFrame) (c : String) (vals : List Cell) : DataFrame :=
  if c ∈ df.cols then
    { cols := df.cols,
      rows := List.zipWith (fun r v =>
        r.map (fun kv => if kv.1 = c then (c, v) else kv)) df.rows vals }
  else
    { cols := df.cols ++ [c],
      rows := List.zipWith (fun r v => r ++ [(c, v)]) df.rows vals }

/-- `out.sort_values("score", ascending=False)`: stable descending sort
by the score column (see the module comment on the sort embedding). -/
def sortScoreDesc (df : DataFrame) : DataFrame :=
  { df with
    rows := List.insertionSort
      (fun r1 r2 => cellInt (getVal r2 "score") ≤ cellInt (getVal r1 "score"))
      df.rows }

/-- `df.head(n)`. -/
def headRows (n : Nat) (df : DataFrame) : DataFrame :=
  { df with rows := df.rows.take n }

/-- `recommend_by_need` from `preprocess.py`: an unknown need key raises
`ValueError`; otherwise the scored copy of the meta frame is sorted
descending by score and truncated to `top_n` rows. A score/meta length
mismatch raises inside pandas at `out["score"] = score.values`. -/
def recommend_by_need (features_df meta_df : DataFrame) (need : String)
    (top_n : Nat) : Except String DataFrame :=
  match NEED_TO_NUTRI.lookup need with
  | none => Except.error "need must be one of the NEED_TO_NUTRI keys"
  | some weights =>
    let score := needScores features_df weights
    if score.length = meta_df.rows.length then
      Except.ok (headRows top_n
        (sortScoreDesc (setColVals meta_df "score" (score.map Cell.int))))
    else Except.error "Length of values does not match length of index"

/-- The empty frame, the read of a dangling reference. -/
def emptyDF : DataFrame := { cols := [], rows := [] }

/-- A heap of frame objects; Python names hold references into it. -/
abbrev Heap := List DataFrame

/-- Dereference a frame. -/
def readRef (h : Heap) (r : Nat) : DataFrame :=
  (h[r]?).getD emptyDF

/-- `preprocess_for_reco` with the object identity of the frames made
explicit: `df = df_raw.copy()` allocates, the date-parsing loop assigns
columns of `df` in place, and the two result frames are fresh
allocations; the caller's `df_raw` reference is only ever read. Returns
the final heap and references to the feature and meta frames. -/
def preprocess_for_reco_st (h : Heap) (raw : Nat) : Heap × Nat × Nat :=
  let dfRef := h.length
  let h1 := h ++ [readRef h raw]
  let h2 := h1.set dfRef (dateParsed (readRef h1 dfRef))
  let df := readRef h2 dfRef
  let features := buildFeatures (_merge_text df)
  let mask := maskOf features
  let fRef := h2.length
  let h3 := h2 ++ [{ cols := features.cols,
                     rows := maskFilter mask features.rows : DataFrame }]
  let keep := metaKeepCols df
  let mRef := h3.length
  let h4 := h3 ++ [{ cols := keep,
                     rows := maskFilter mask (df.rows.map (projRow keep)) : DataFrame }]
  (h4, fRef, mRef)

/-- `recommend_by_need` with object identity explicit: `out =
meta_df.copy()` allocates, `out["score"] = score.values` assigns into
that copy in place, and the sorted/truncated result is a fresh frame;
`features_df` and `meta_df` are only ever read. -/
def recommend_by_need_st (h : Heap) (fRef mRef : Nat) (need : String)
    (top_n : Nat) : Heap × Except String Nat :=
  match NEED_TO_NUTRI.lookup need with
  | none => (h, Except.error "need must be one of the NEED_TO_NUTRI keys")
  | some weights =>
    let score := needScores (readRef h fRef) weights
    let outRef := h.length
    let h1 := h ++ [readRef h mRef]
    if score.length = (readRef h mRef).rows.length then
      let h2 := h1.set outRef
        (setColVals (readRef h1 outRef) "score" (score.map Cell.int))
      let resRef := h2.length
      let h3 := h2 ++ [headRows top_n (sortScoreDesc (readRef h2 outRef))]
      (h3, Except.ok resRef)
    else (h1, Except.error "Length of values does not match length of index")

/-- The per-row weighted sum stated by the specification: over the
profile's (keyword, weight) pairs, the row's indicator when the keyword
is a feature column (else 0), times the weight. -/
def specRowScore (cols : List String) (weights : List (String × Int))
    (r : Row) : Int :=
  (weights.map (fun kw =>
    (if kw.1 ∈ cols then cellInt (fillnaZero (getVal r kw.1)) else 0) * kw.2)).sum

/-- Does a row carry at least one indicator equal to 1? -/
def rowHasHit (r : Row) : Bool :=
  r.any (fun kv => decide (kv.2 = Cell.int 1))

/-- The positions at which a mask is true. -/
def maskIdx (mask : List Bool) : List Nat :=
  (List.range mask.length).filter (fun i => mask.getD i false)

/-- A frame is well formed when every row carries exactly the frame's
columns, in order (always true of a pandas frame). -/
def dfWF (df : DataFrame) : Prop :=
  ∀ r ∈ df.rows, r.map Prod.fst = df.cols

theorem toNat_ofNat_valid {n : Nat} (h : n.isValidChar) :
    (Char.ofNat n).toNat = n := by
  rw [Char.ofNat, dif_pos h]
  rfl

theorem lowerChar_eq_of_not {c : Char} (h : ¬(65 ≤ c.toNat ∧ c.toNat ≤ 90)) :
    lowerChar c = c := by
  simp only [lowerChar, if_neg h]

theorem lowerChar_toNat {c : Char} (h : 65 ≤ c.toNat ∧ c.toNat ≤ 90) :
    (lowerChar c).toNat = c.toNat + 32 := by
  rw [lowerChar, if_pos h]
  exact toNat_ofNat_valid (Or.inl (by omega))

theorem lowerChar_idem (c : Char) : lowerChar (lowerChar c) = lowerChar c := by
  by_cases h : 65 ≤ c.toNat ∧ c.toNat ≤ 90
  · have hn := lowerChar_toNat h
    exact lowerChar_eq_of_not (by omega)
  · rw [lowerChar_eq_of_not h, lowerChar_eq_of_not h]

theorem isWs_false_of_range {c : Char}
    (h : 97 ≤ c.toNat ∧ c.toNat ≤ 122 ∨ 65 ≤ c.toNat ∧ c.toNat ≤ 90) :
    isWs c = false := by
  by_contra hw
  rw [Bool.not_eq_false] at hw
  have hc : c = ' ' ∨ c = '\t' ∨ c = '\n' ∨ c = '\r' ∨ c = '\x0b' ∨ c = '\x0c' := by
    simpa [isWs, or_assoc] using hw
  rcases hc with h1 | h1 | h1 | h1 | h1 | h1 <;> subst h1 <;> revert h <;> decide

theorem isWs_lowerChar (c : Char) : isWs (lowerChar c) = isWs c := by
  by_cases h : 65 ≤ c.toNat ∧ c.toNat ≤ 90
  · have hn := lowerChar_toNat h
    rw [isWs_false_of_range (Or.inl ⟨by omega, by omega⟩), isWs_false_of_range (Or.inr h)]
  · rw [lowerChar_eq_of_not h]

theorem mapLower_collapseGo : ∀ (l : List Char) (b : Bool),
    (collapseGo b l).map lowerChar = collapseGo b (l.map lowerChar)
  | [], _ => rfl
  | c :: cs, b => by
    have hws := isWs_lowerChar c
    have hsp : lowerChar ' ' = ' ' := by decide
    by_cases hw : isWs c
    · cases b <;>
        simp [collapseGo, hw, hws, hsp, mapLower_collapseGo cs true]
    · simp [collapseGo, hw, hws, mapLower_collapseGo cs false]

theorem collapseGo_idem : ∀ (l : List Char),
    collapseGo false (collapseGo false l) = collapseGo false l ∧
    collapseGo false (collapseGo true l) = collapseGo true l ∧
    collapseGo true (collapseGo true l) = collapseGo true l
  | [] => ⟨rfl, rfl, rfl⟩
  | c :: cs => by
    obtain ⟨ih1, ih2, ih3⟩ := collapseGo_idem cs
    have hsp : isWs ' ' = true := by decide
    by_cases hw : isWs c
    · refine ⟨?_, ?_, ?_⟩ <;> simp [collapseGo, hw, hsp, ih2, ih3]
    · refine ⟨?_, ?_, ?_⟩ <;> simp [collapseGo, hw, ih1]

theorem normStr_idem (s : String) : normStr (normStr s) = normStr s := by
  show String.mk (collapseGo false (((collapseGo false (s.data.map lowerChar)).map lowerChar)))
      = String.mk (collapseGo false (s.data.map lowerChar))
  have hmm : (s.data.map lowerChar).map lowerChar = s.data.map lowerChar := by
    rw [List.map_map]
    have : lowerChar ∘ lowerChar = lowerChar := funext lowerChar_idem
    rw [this]
  rw [mapLower_collapseGo, hmm, (collapseGo_idem _).1]

/-- C8: the text normaliser `_norm` is total, maps null to the empty
string, and is idempotent: renormalising an already normalised value
changes nothing. -/
theorem C8_norm_null_and_idempotent :
    _norm Cell.null = "" ∧ ∀ v : Cell, _norm (Cell.str (_norm v)) = _norm v := by
  refine ⟨rfl, ?_⟩
  intro v
  cases v with
  | null =>
    show normStr "" = ""
    rfl
  | str s => exact normStr_idem s
  | int n => exact normStr_idem (toString n)
  | date s => exact normStr_idem s

/-- C5: requesting an unknown need key is a configuration error: the
call reports it to the caller and produces no ranked output. -/
theorem C5_unknown_need_errors (features_df meta_df : DataFrame)
    (need : String) (top_n : Nat) (h : NEED_TO_NUTRI.lookup need = none) :
    recommend_by_need features_df meta_df need top_n
      = Except.error "need must be one of the NEED_TO_NUTRI keys" := by
  unfold recommend_by_need
  rw [h]

/-- Witness for C5 at the spec's own example key "nonexistent". -/
theorem C5_witness :
    NEED_TO_NUTRI.lookup "nonexistent" = none ∧
    recommend_by_need emptyDF emptyDF "nonexistent" 10
      = Except.error "need must be one of the NEED_TO_NUTRI keys" :=
  ⟨by decide, C5_unknown_need_errors emptyDF emptyDF "nonexistent" 10 (by decide)⟩

/-- C9: on the merged text of the spec's example, the keyword matcher
raises exactly the `vitamin_c` indicator; every other keyword of the
table (in particular `melatonin`) gets indicator 0. -/
theorem C9_vitamin_c_example :
    (NUTRI_KEYWORDS.all (fun kp =>
      decide (indicatorOf kp.2 "고함량 비타민 c 1000mg"
        = if kp.1 = "vitamin_c" then 1 else 0))) = true := by
  decide

theorem readRef_append_lt {h : Heap} {i : Nat} (hi : i < h.length)
    (dfs : Heap) : readRef (h ++ dfs) i = readRef h i := by
  unfold readRef
  rw [List.getElem?_append_left hi]

theorem readRef_set_ne {h : Heap} {i j : Nat} (hij : i ≠ j)
    (df : DataFrame) : readRef (h.set i df) j = readRef h j := by
  unfold readRef
  rw [List.getElem?_set_ne hij]

/-- C10: neither entry point mutates a caller-supplied frame. In the
heap model, running `preprocess_for_reco` leaves the frame referenced
by `df_raw` untouched, and running `recommend_by_need` leaves the
frames referenced by `features_df` and `meta_df` untouched, whether it
succeeds or reports an error. -/
theorem C10_no_caller_mutation :
    (∀ (h : Heap) (raw : Nat), raw < h.length →
      readRef (preprocess_for_reco_st h raw).1 raw = readRef h raw) ∧
    (∀ (h : Heap) (fRef mRef : Nat) (need : String) (top_n : Nat),
      fRef < h.length → mRef < h.length →
      readRef (recommend_by_need_st h fRef mRef need top_n).1 fRef
          = readRef h fRef ∧
        readRef (recommend_by_need_st h fRef mRef need top_n).1 mRef
          = readRef h mRef) := by
  constructor
  · intro h raw hraw
    unfold preprocess_for_reco_st
    simp only
    rw [readRef_append_lt (by simp; omega),
        readRef_append_lt (by simp; omega),
        readRef_set_ne (by omega),
        readRef_append_lt hraw]
  · intro h fRef mRef need top_n hf hm
    unfold recommend_by_need_st
    cases NEED_TO_NUTRI.lookup need with
    | none => exact ⟨rfl, rfl⟩
    | some weights =>
      simp only
      by_cases hlen : (needScores (readRef h fRef) weights).length
          = (readRef h mRef).rows.length
      · rw [if_pos hlen]
        constructor <;>
          rw [readRef_append_lt (by simp; omega),
              readRef_set_ne (by omega),
              readRef_append_lt (by omega)]
      · rw [if_neg hlen]
        exact ⟨readRef_append_lt hf _, readRef_append_lt hm _⟩

/-- Witness for C10 on a concrete one-frame heap. -/
theorem C10_witness :
    (0 < ([emptyDF] : Heap).length ∧
      readRef (preprocess_for_reco_st [emptyDF] 0).1 0 = readRef [emptyDF] 0) ∧
    (readRef (recommend_by_need_st [emptyDF] 0 0 "sleep" 10).1 0
      = readRef [emptyDF] 0) :=
  ⟨⟨by decide, C10_no_caller_mutation.1 [emptyDF] 0 (by decide)⟩,
    (C10_no_caller_mutation.2 [emptyDF] 0 0 "sleep" 10 (by decide) (by decide)).1⟩

theorem zipWith_left_id {α β : Type} (f : α → β → α) (hf : ∀ a b, f a b = a) :
    ∀ (l1 : List α) (l2 : List β), l1.length = l2.length →
      List.zipWith f l1 l2 = l1
  | [], [], _ => rfl
  | [], _ :: _, h => by simp at h
  | _ :: _, [], h => by simp at h
  | a :: l1, b :: l2, h => by
    simp only [List.zipWith_cons_cons, hf]
    rw [zipWith_left_id f hf l1 l2 (by simpa using h)]

theorem zipWith_zipWith_same {α β γ δ : Type} (h : γ → β → δ) (g : α → β → γ) :
    ∀ (l1 : List α) (l2 : List β),
      List.zipWith h (List.zipWith g l1 l2) l2
        = List.zipWith (fun a b => h (g a b) b) l1 l2
  | [], _ => by simp
  | _ :: _, [] => by simp
  | a :: l1, b :: l2 => by
    simp only [List.zipWith_cons_cons]
    rw [zipWith_zipWith_same h g l1 l2]

theorem zipWith_replicate_left {α β γ : Type} (f : α → β → γ) (c : α) :
    ∀ (l : List β),
      List.zipWith f (List.replicate l.length c) l = l.map (f c)
  | [] => rfl
  | b :: l => by
    simp only [List.length_cons, List.replicate_succ, List.zipWith_cons_cons,
      List.map_cons]
    rw [zipWith_replicate_left f c l]

/-- The iterative score series of the source equals the specification's
per-row weighted sum, row by row. -/
theorem needScores_eq_spec (fdf : DataFrame) (weights : List (String × Int)) :
    needScores fdf weights = fdf.rows.map (specRowScore fdf.cols weights) := by
  have main : ∀ (ws : List (String × Int)) (sc : List Int),
      sc.length = fdf.rows.length →
      ws.foldl
        (fun sc kw =>
          if kw.1 ∈ fdf.cols then
            List.zipWith (fun a cel => a + cellInt (fillnaZero cel) * kw.2) sc
              (getColCells fdf kw.1)
          else sc) sc
      = List.zipWith (fun a r => a + specRowScore fdf.cols ws r) sc fdf.rows := by
    intro ws
    induction ws with
    | nil =>
      intro sc hlen
      simp only [List.foldl_nil]
      rw [zipWith_left_id _ (fun a r => by simp [specRowScore]) sc fdf.rows hlen]
    | cons kw ws ih =>
      intro sc hlen
      simp only [List.foldl_cons]
      by_cases hk : kw.1 ∈ fdf.cols
      · rw [if_pos hk]
        have h1 : List.zipWith
            (fun a cel => a + cellInt (fillnaZero cel) * kw.2) sc
            (getColCells fdf kw.1)
            = List.zipWith
              (fun a r => a + cellInt (fillnaZero (getVal r kw.1)) * kw.2) sc
              fdf.rows := by
          unfold getColCells
          rw [List.zipWith_map_right]
        have hlen2 : (List.zipWith
            (fun a r => a + cellInt (fillnaZero (getVal r kw.1)) * kw.2) sc
            fdf.rows).length = fdf.rows.length := by
          rw [List.length_zipWith]
          omega
        rw [h1, ih _ hlen2, zipWith_zipWith_same]
        have hfun : (fun (a : Int) (r : Row) =>
              a + cellInt (fillnaZero (getVal r kw.1)) * kw.2
                + specRowScore fdf.cols ws r)
            = fun a r => a + specRowScore fdf.cols (kw :: ws) r := by
          funext a r
          simp only [specRowScore, List.map_cons, List.sum_cons, if_pos hk]
          ring
        rw [hfun]
      · rw [if_neg hk, ih _ hlen]
        have hfun : (fun (a : Int) (r : Row) => a + specRowScore fdf.cols ws r)
            = fun a r => a + specRowScore fdf.cols (kw :: ws) r := by
          funext a r
          simp only [specRowScore, List.map_cons, List.sum_cons, if_neg hk,
            Int.zero_mul, Int.zero_add]
        rw [hfun]
  unfold needScores
  rw [main weights _ (by simp), zipWith_replicate_left]
  simp only [Int.zero_add]

/-- C1: for aligned feature/meta frames and a configured need, the score
`recommend_by_need` assigns to each row is exactly the specification's
weighted sum over the need's profile (a keyword missing from the feature
columns contributes 0); in particular the spec's sleep example scores 5. -/
theorem C1_scores_are_weighted_sums :
    (∀ (fdf mdf : DataFrame) (need : String) (weights : List (String × Int))
        (top_n : Nat),
      NEED_TO_NUTRI.lookup need = some weights →
      fdf.rows.length = mdf.rows.length →
      recommend_by_need fdf mdf need top_n
        = Except.ok (headRows top_n (sortScoreDesc (setColVals mdf "score"
            ((fdf.rows.map (specRowScore fdf.cols weights)).map Cell.int))))) ∧
    (NEED_TO_NUTRI.lookup "sleep").map (fun w =>
        specRowScore ["melatonin", "l_theanine", "magnesium"] w
          [("melatonin", Cell.int 1), ("l_theanine", Cell.int 1),
           ("magnesium", Cell.int 0)])
      = some 5 := by
  constructor
  · intro fdf mdf need weights top_n hneed hlen
    unfold recommend_by_need
    rw [hneed]
    simp only
    rw [needScores_eq_spec]
    rw [if_pos (by rw [List.length_map]; exact hlen)]
  · decide

/-- Witness for C1 on a one-row frame: the sleep profile assigns score 5
and the ranked output carries it. -/
theorem C1_witness :
    recommend_by_need
        (DataFrame.mk ["melatonin", "l_theanine", "magnesium"]
          [[("melatonin", Cell.int 1), ("l_theanine", Cell.int 1),
            ("magnesium", Cell.int 0)]])
        (DataFrame.mk ["PRDLST_NM"] [[("PRDLST_NM", Cell.str "sleep aid")]])
        "sleep" 10
      = Except.ok (headRows 10 (sortScoreDesc (setColVals
          (DataFrame.mk ["PRDLST_NM"] [[("PRDLST_NM", Cell.str "sleep aid")]])
          "score"
          (((DataFrame.mk ["melatonin", "l_theanine", "magnesium"]
              [[("melatonin", Cell.int 1), ("l_theanine", Cell.int 1),
                ("magnesium", Cell.int 0)]]).rows.map
            (specRowScore ["melatonin", "l_theanine", "magnesium"]
              [("melatonin", 3), ("l_theanine", 2), ("magnesium", 1)])).map
            Cell.int)))) :=
  C1_scores_are_weighted_sums.1
    (DataFrame.mk ["melatonin", "l_theanine", "magnesium"]
      [[("melatonin", Cell.int 1), ("l_theanine", Cell.int 1),
        ("magnesium", Cell.int 0)]])
    (DataFrame.mk ["PRDLST_NM"] [[("PRDLST_NM", Cell.str "sleep aid")]])
    "sleep" [("melatonin", 3), ("l_theanine", 2), ("magnesium", 1)] 10
    (by decide) (by decide)

theorem featureRow_vals {t : String} {kv : String × Cell}
    (h : kv ∈ featureRowOf t) : kv.2 = Cell.int 0 ∨ kv.2 = Cell.int 1 := by
  unfold featureRowOf at h
  obtain ⟨kp, hkp, rfl⟩ := List.mem_map.mp h
  unfold indicatorOf
  by_cases hc : strContains kp.2 t <;> simp [hc]

theorem maskFilter_subset {α : Type} {mask : List Bool} {l : List α} {x : α}
    (h : x ∈ maskFilter mask l) : x ∈ l := by
  unfold maskFilter at h
  obtain ⟨p, hp, rfl⟩ := List.mem_map.mp h
  obtain ⟨b, a⟩ := p
  exact (List.of_mem_zip (List.mem_filter.mp hp).1).2

/-- C6: every keyword-indicator cell in the feature frame returned by
`preprocess_for_reco` is exactly 0 or 1. -/
theorem C6_indicators_binary (df_raw : DataFrame) (r : Row)
    (kv : String × Cell) (hr : r ∈ (preprocess_for_reco df_raw).1.rows)
    (hkv : kv ∈ r) : kv.2 = Cell.int 0 ∨ kv.2 = Cell.int 1 := by
  have he : (preprocess_for_reco df_raw).1.rows
      = maskFilter (maskOf (buildFeatures (_merge_text (dateParsed df_raw))))
          (buildFeatures (_merge_text (dateParsed df_raw))).rows := rfl
  rw [he] at hr
  have hr' := maskFilter_subset hr
  have hb : (buildFeatures (_merge_text (dateParsed df_raw))).rows
      = (_merge_text (dateParsed df_raw)).map featureRowOf := rfl
  rw [hb] at hr'
  obtain ⟨t, ht, rfl⟩ := List.mem_map.mp hr'
  exact featureRow_vals hkv

/-- Witness for C6: the first cell of the first feature row of a
one-product frame. -/
theorem C6_witness :
    ((((preprocess_for_reco (DataFrame.mk ["PRDLST_NM"]
        [[("PRDLST_NM", Cell.str "vitamin c 1000")]])).1.rows.getD 0 []).getD 0
          ("", Cell.null)).2 = Cell.int 0 ∨
     (((preprocess_for_reco (DataFrame.mk ["PRDLST_NM"]
        [[("PRDLST_NM", Cell.str "vitamin c 1000")]])).1.rows.getD 0 []).getD 0
          ("", Cell.null)).2 = Cell.int 1) :=
  C6_indicators_binary
    (DataFrame.mk ["PRDLST_NM"] [[("PRDLST_NM", Cell.str "vitamin c 1000")]])
    ((preprocess_for_reco (DataFrame.mk ["PRDLST_NM"]
        [[("PRDLST_NM", Cell.str "vitamin c 1000")]])).1.rows.getD 0 [])
    (((preprocess_for_reco (DataFrame.mk ["PRDLST_NM"]
        [[("PRDLST_NM", Cell.str "vitamin c 1000")]])).1.rows.getD 0 []).getD 0
          ("", Cell.null))
    (by decide) (by decide)

theorem any_map_general {α β : Type} (f : α → β) (p : β → Bool) :
    ∀ (l : List α), (l.map f).any p = l.any (fun a => p (f a))
  | [] => rfl
  | x :: xs => by
    simp only [List.map_cons, List.any_cons]
    rw [any_map_general f p xs]

theorem any_congr {α : Type} {p q : α → Bool} :
    ∀ (l : List α), (∀ x ∈ l, p x = q x) → l.any p = l.any q
  | [], _ => rfl
  | x :: xs, h => by
    simp only [List.any_cons, h x (by simp)]
    rw [any_congr xs (fun y hy => h y (by simp [hy]))]

theorem sum_nonneg_of_binary :
    ∀ (xs : List Int), (∀ x ∈ xs, x = 0 ∨ x = 1) → 0 ≤ xs.sum
  | [], _ => le_refl 0
  | x :: xs, h => by
    have hx := h x (by simp)
    have ih := sum_nonneg_of_binary xs (fun y hy => h y (by simp [hy]))
    simp only [List.sum_cons]
    rcases hx with rfl | rfl <;> omega

theorem sum_pos_iff_any_one :
    ∀ (xs : List Int), (∀ x ∈ xs, x = 0 ∨ x = 1) →
      decide (0 < xs.sum) = xs.any (fun x => decide (x = 1))
  | [], _ => by decide
  | x :: xs, h => by
    have hx := h x (by simp)
    have hxs : ∀ y ∈ xs, y = 0 ∨ y = 1 := fun y hy => h y (by simp [hy])
    have hnn := sum_nonneg_of_binary xs hxs
    have ih := sum_pos_iff_any_one xs hxs
    simp only [List.sum_cons, List.any_cons]
    rcases hx with rfl | rfl
    · simpa using ih
    · have h1 : decide ((0 : Int) < 1 + xs.sum) = true := by
        simp only [decide_eq_true_eq]
        omega
      simp [h1]

/-- On a row of binary indicator cells, the source's retention test (row
sum strictly positive) is exactly "some indicator equals 1". -/
theorem mask_eq_hasHit (r : Row)
    (h : ∀ kv ∈ r, kv.2 = Cell.int 0 ∨ kv.2 = Cell.int 1) :
    decide (0 < rowIndicatorSum r) = rowHasHit r := by
  unfold rowIndicatorSum rowHasHit
  rw [sum_pos_iff_any_one _ ?hbin]
  case hbin =>
    intro x hx
    obtain ⟨kv, hkv, rfl⟩ := List.mem_map.mp hx
    rcases h kv hkv with h0 | h0 <;> rw [h0] <;> simp [cellInt]
  rw [any_map_general]
  apply any_congr
  intro kv hkv
  rcases h kv hkv with h0 | h0 <;> rw [h0] <;> rfl

theorem maskFilter_map_self {α : Type} (p : α → Bool) :
    ∀ (l : List α), maskFilter (l.map p) l = l.filter p
  | [] => rfl
  | x :: xs => by
    have ih := maskFilter_map_self p xs
    simp only [maskFilter] at ih ⊢
    simp only [List.map_cons, List.zip_cons_cons, List.filter_cons]
    cases hp : p x <;> simp [hp, ih]

theorem maskFilter_map_zip {α β : Type} (p : α → Bool) :
    ∀ (l1 : List α) (l2 : List β), l1.length = l2.length →
      maskFilter (l1.map p) l2
        = ((l1.zip l2).filter (fun q => p q.1)).map Prod.snd
  | [], [], _ => rfl
  | [], _ :: _, h => by simp at h
  | _ :: _, [], h => by simp at h
  | x :: xs, y :: ys, h => by
    have ih := maskFilter_map_zip p xs ys (by simpa using h)
    simp only [maskFilter] at ih ⊢
    simp only [List.map_cons, List.zip_cons_cons, List.filter_cons]
    cases hp : p x <;> simp [hp, ih]

/-- C3: a row survives `preprocess_for_reco` exactly when at least one
of its keyword indicators is 1 — the feature frame keeps precisely the
hit rows, and the meta frame keeps precisely the projections of the raw
rows whose feature row has a hit, so no non-indicator column takes part
in the decision. -/
theorem C3_zero_hit_rows_dropped (df_raw : DataFrame) :
    (preprocess_for_reco df_raw).1.rows
      = (buildFeatures (_merge_text (dateParsed df_raw))).rows.filter rowHasHit ∧
    (preprocess_for_reco df_raw).2.rows
      = (((buildFeatures (_merge_text (dateParsed df_raw))).rows.zip
            ((dateParsed df_raw).rows.map
              (projRow (metaKeepCols (dateParsed df_raw))))).filter
          (fun q => rowHasHit q.1)).map Prod.snd := by
  have hvals : ∀ r ∈ (buildFeatures (_merge_text (dateParsed df_raw))).rows,
      ∀ kv ∈ r, kv.2 = Cell.int 0 ∨ kv.2 = Cell.int 1 := by
    intro r hr kv hkv
    have hb : (buildFeatures (_merge_text (dateParsed df_raw))).rows
        = (_merge_text (dateParsed df_raw)).map featureRowOf := rfl
    rw [hb] at hr
    obtain ⟨t, ht, rfl⟩ := List.mem_map.mp hr
    exact featureRow_vals hkv
  have hmask : maskOf (buildFeatures (_merge_text (dateParsed df_raw)))
      = (buildFeatures (_merge_text (dateParsed df_raw))).rows.map
          (fun r => decide (0 < rowIndicatorSum r)) := rfl
  constructor
  · have he : (preprocess_for_reco df_raw).1.rows
        = maskFilter (maskOf (buildFeatures (_merge_text (dateParsed df_raw))))
            (buildFeatures (_merge_text (dateParsed df_raw))).rows := rfl
    rw [he, hmask, maskFilter_map_self]
    exact List.filter_congr (fun r hr => mask_eq_hasHit r (hvals r hr))
  · have he : (preprocess_for_reco df_raw).2.rows
        = maskFilter (maskOf (buildFeatures (_merge_text (dateParsed df_raw))))
            ((dateParsed df_raw).rows.map
              (projRow (metaKeepCols (dateParsed df_raw)))) := rfl
    rw [he, hmask, maskFilter_map_zip _ _ _ (by
      simp [buildFeatures, _merge_text])]
    congr 1
    apply List.filter_congr
    intro q hq
    exact mask_eq_hasHit q.1 (hvals q.1 (List.of_mem_zip (a := q.1) (b := q.2)
      (by simpa using hq)).1)

theorem getD_map {α β : Type} (f : α → β) (d : α) :
    ∀ (l : List α) (i : Nat), (l.map f).getD i (f d) = f (l.getD i d)
  | [], _ => rfl
  | _ :: _, 0 => rfl
  | _ :: xs, i + 1 => getD_map f d xs i

theorem maskIdx_cons (b : Bool) (ms : List Bool) :
    maskIdx (b :: ms) = (if b then [0] else []) ++ (maskIdx ms).map (· + 1) := by
  unfold maskIdx
  rw [List.length_cons, List.range_succ_eq_map, List.filter_cons, List.filter_map]
  have hpred : ((fun i => (b :: ms).getD i false) ∘ Nat.succ)
      = fun i => ms.getD i false := by
    funext i
    simp
  rw [hpred]
  cases b <;> simp

theorem maskFilter_eq_idx {α : Type} (d : α) :
    ∀ (mask : List Bool) (l : List α), mask.length = l.length →
      maskFilter mask l = (maskIdx mask).map (fun i => l.getD i d)
  | [], [], _ => rfl
  | [], _ :: _, h => by simp at h
  | _ :: _, [], h => by simp at h
  | b :: ms, x :: xs, h => by
    have ih := maskFilter_eq_idx d ms xs (by simpa using h)
    rw [maskIdx_cons]
    simp only [maskFilter, List.zip_cons_cons, List.filter_cons, List.map_append,
      List.map_map]
    have hcomp : ((fun i => (x :: xs).getD i d) ∘ (· + 1))
        = fun i => xs.getD i d := by
      funext i
      simp
    rw [hcomp]
    simp only [maskFilter] at ih
    cases b <;> simp [ih]

/-- C4: the feature and meta frames returned by `preprocess_for_reco`
have the same number of rows, and row `i` of each is derived from the
input row at one common original position. -/
theorem C4_feature_meta_aligned (df_raw : DataFrame) :
    (preprocess_for_reco df_raw).1.rows.length
        = (preprocess_for_reco df_raw).2.rows.length ∧
    (preprocess_for_reco df_raw).1.rows
        = (maskIdx (maskOf (buildFeatures (_merge_text (dateParsed df_raw))))).map
            (fun i => (buildFeatures (_merge_text (dateParsed df_raw))).rows.getD i []) ∧
    (preprocess_for_reco df_raw).2.rows
        = (maskIdx (maskOf (buildFeatures (_merge_text (dateParsed df_raw))))).map
            (fun i => projRow (metaKeepCols (dateParsed df_raw))
              ((dateParsed df_raw).rows.getD i [])) := by
  have hlen1 : (maskOf (buildFeatures (_merge_text (dateParsed df_raw)))).length
      = (buildFeatures (_merge_text (dateParsed df_raw))).rows.length := by
    simp [maskOf]
  have hlen2 : (maskOf (buildFeatures (_merge_text (dateParsed df_raw)))).length
      = ((dateParsed df_raw).rows.map
          (projRow (metaKeepCols (dateParsed df_raw)))).length := by
    simp [maskOf, buildFeatures, _merge_text]
  have h1 : (preprocess_for_reco df_raw).1.rows
      = maskFilter (maskOf (buildFeatures (_merge_text (dateParsed df_raw))))
          (buildFeatures (_merge_text (dateParsed df_raw))).rows := rfl
  have h2 : (preprocess_for_reco df_raw).2.rows
      = maskFilter (maskOf (buildFeatures (_merge_text (dateParsed df_raw))))
          ((dateParsed df_raw).rows.map
            (projRow (metaKeepCols (dateParsed df_raw)))) := rfl
  have e1 := maskFilter_eq_idx ([] : Row) _ _ hlen1
  have e2 := maskFilter_eq_idx (projRow (metaKeepCols (dateParsed df_raw)) [])
    _ _ hlen2
  have e2' : maskFilter (maskOf (buildFeatures (_merge_text (dateParsed df_raw))))
      ((dateParsed df_raw).rows.map (projRow (metaKeepCols (dateParsed df_raw))))
      = (maskIdx (maskOf (buildFeatures (_merge_text (dateParsed df_raw))))).map
          (fun i => projRow (metaKeepCols (dateParsed df_raw))
            ((dateParsed df_raw).rows.getD i [])) := by
    rw [e2]
    apply List.map_congr_left
    intro i _
    exact getD_map _ _ _ _
  refine ⟨?_, ?_, ?_⟩
  · rw [h1, h2, e1, e2']
    simp
  · rw [h1, e1]
  · rw [h2, e2']

theorem lookup_append_single {r : Row} {c : String}
    (h : ¬ c ∈ r.map Prod.fst) (v : Cell) :
    (r ++ [(c, v)]).lookup c = some v := by
  rw [List.lookup_append]
  have hnone : r.lookup c = none := by
    rw [List.lookup_eq_none_iff]
    intro p hp
    simp only [bne_iff_ne, ne_eq]
    exact fun he => h (List.mem_map.mpr ⟨p, hp, he.symm⟩)
  rw [hnone, List.lookup_cons_self, Option.none_or]

theorem lookup_replace_of_mem {r : Row} {c : String}
    (h : c ∈ r.map Prod.fst) (v : Cell) :
    (r.map (fun kv => if kv.1 = c then (c, v) else kv)).lookup c = some v := by
  induction r with
  | nil => simp at h
  | cons kv rest ih =>
    obtain ⟨k, w⟩ := kv
    by_cases hk : k = c
    · simp only [List.map_cons, if_pos hk, List.lookup_cons_self]
    · have hmem : c ∈ rest.map Prod.fst := by
        simp only [List.map_cons, List.mem_cons] at h
        rcases h with he | hm
        · exact absurd he.symm hk
        · exact hm
      have hbeq : (c == k) = false := by
        simp only [beq_eq_false_iff_ne, ne_eq]
        exact fun he => hk he.symm
      simp only [List.map_cons, if_neg hk, List.lookup_cons, hbeq]
      exact ih hmem

theorem zipWith_eq_right {α β : Type} (f : α → β → β) :
    ∀ (l1 : List α) (l2 : List β), l1.length = l2.length →
      (∀ a ∈ l1, ∀ b ∈ l2, f a b = b) → List.zipWith f l1 l2 = l2
  | [], [], _, _ => rfl
  | [], _ :: _, h, _ => by simp at h
  | _ :: _, [], h, _ => by simp at h
  | a :: l1, b :: l2, h, hf => by
    simp only [List.zipWith_cons_cons]
    rw [hf a (by simp) b (by simp),
      zipWith_eq_right f l1 l2 (by simpa using h)
        (fun x hx y hy => hf x (by simp [hx]) y (by simp [hy]))]

theorem setColVals_length (df : DataFrame) (c : String) (vals : List Cell)
    (h : vals.length = df.rows.length) :
    (setColVals df c vals).rows.length = df.rows.length := by
  unfold setColVals
  by_cases hc : c ∈ df.cols <;>
    simp only [hc, if_pos, if_neg, not_false_iff, List.length_zipWith, h] <;>
    omega

/-- Reading back the score column written by `out["score"] = score`. -/
theorem scoreCol_setColVals (mdf : DataFrame) (hwf : dfWF mdf)
    (score : List Int) (hlen : score.length = mdf.rows.length) :
    (setColVals mdf "score" (score.map Cell.int)).rows.map
      (fun r => cellInt (getVal r "score")) = score := by
  unfold setColVals
  by_cases hc : "score" ∈ mdf.cols
  · rw [if_pos hc]
    simp only
    rw [List.zipWith_map_right, List.map_zipWith]
    apply zipWith_eq_right _ _ _ (by simpa using hlen.symm)
    intro r hr s _
    have hmem : "score" ∈ r.map Prod.fst := by rw [hwf r hr]; exact hc
    unfold getVal
    rw [lookup_replace_of_mem hmem (Cell.int s)]
    rfl
  · rw [if_neg hc]
    simp only
    rw [List.zipWith_map_right, List.map_zipWith]
    apply zipWith_eq_right _ _ _ (by simpa using hlen.symm)
    intro r hr s _
    have hnot : ¬ "score" ∈ r.map Prod.fst := by rw [hwf r hr]; exact hc
    unfold getVal
    rw [lookup_append_single hnot (Cell.int s)]
    rfl

/-- C7: for a configured need on aligned frames, `recommend_by_need`
succeeds and returns at most `top_n` rows — exactly `min top_n
(number of rows)`, so all rows when fewer than `top_n` qualify, with no
padding — and the returned score column is the descending sort of the
row scores truncated to `top_n`: the highest-scoring rows come first. -/
theorem C7_top_n_truncation (fdf mdf : DataFrame) (need : String)
    (weights : List (String × Int)) (top_n : Nat)
    (hneed : NEED_TO_NUTRI.lookup need = some weights)
    (hwf : dfWF mdf) (hlen : fdf.rows.length = mdf.rows.length) :
    ∃ out, recommend_by_need fdf mdf need top_n = Except.ok out ∧
      out.rows.length = min top_n mdf.rows.length ∧
      out.rows.map (fun r => cellInt (getVal r "score"))
        = (List.insertionSort (fun x y : Int => y ≤ x)
            (needScores fdf weights)).take top_n := by
  have hslen : (needScores fdf weights).length = mdf.rows.length := by
    rw [needScores_eq_spec]
    simp [hlen]
  have hcol : (setColVals mdf "score" ((needScores fdf weights).map Cell.int)).rows.map
      (fun r => cellInt (getVal r "score")) = needScores fdf weights :=
    scoreCol_setColVals mdf hwf _ hslen
  have hlenout : (setColVals mdf "score"
        ((needScores fdf weights).map Cell.int)).rows.length
      = mdf.rows.length :=
    setColVals_length mdf "score" _ (by simpa using hslen)
  haveI : IsTotal Row
      (fun r1 r2 => cellInt (getVal r2 "score") ≤ cellInt (getVal r1 "score")) :=
    ⟨fun a b => le_total _ _⟩
  haveI : IsTrans Row
      (fun r1 r2 => cellInt (getVal r2 "score") ≤ cellInt (getVal r1 "score")) :=
    ⟨fun a b c h1 h2 => le_trans h2 h1⟩
  haveI : IsAntisymm Int (fun x y : Int => y ≤ x) :=
    ⟨fun a b h1 h2 => le_antisymm h2 h1⟩
  have hperm : (List.insertionSort
      (fun r1 r2 => cellInt (getVal r2 "score") ≤ cellInt (getVal r1 "score"))
      (setColVals mdf "score" ((needScores fdf weights).map Cell.int)).rows).map
        (fun r => cellInt (getVal r "score"))
      = List.insertionSort (fun x y : Int => y ≤ x) (needScores fdf weights) := by
    refine List.eq_of_perm_of_sorted (r := fun x y : Int => y ≤ x) ?_ ?_ ?_
    · refine (((List.perm_insertionSort _ _).map _).trans ?_)
      rw [hcol]
      exact (List.perm_insertionSort _ _).symm
    · exact List.pairwise_map.mpr (List.sorted_insertionSort _ _)
    · exact List.sorted_insertionSort _ _
  refine ⟨headRows top_n (sortScoreDesc (setColVals mdf "score"
    ((needScores fdf weights).map Cell.int))), ?_, ?_, ?_⟩
  · unfold recommend_by_need
    rw [hneed]
    simp only
    rw [if_pos (by rw [hslen])]
  · show ((List.insertionSort _ _).take top_n).length = _
    rw [List.length_take, List.length_insertionSort, hlenout]
  · show ((List.insertionSort _ _).take top_n).map _ = _
    rw [List.map_take, hperm]

/-- Witness for C7: three qualifying rows with `top_n = 10` yield
exactly three rows, scores sorted descending. -/
theorem C7_witness :
    ∃ out, recommend_by_need
        (DataFrame.mk ["melatonin", "l_theanine", "magnesium"]
          [[("melatonin", Cell.int 1), ("l_theanine", Cell.int 1),
            ("magnesium", Cell.int 0)],
           [("melatonin", Cell.int 0), ("l_theanine", Cell.int 0),
            ("magnesium", Cell.int 1)],
           [("melatonin", Cell.int 1), ("l_theanine", Cell.int 0),
            ("magnesium", Cell.int 0)]])
        (DataFrame.mk ["PRDLST_NM"]
          [[("PRDLST_NM", Cell.str "a")], [("PRDLST_NM", Cell.str "b")],
           [("PRDLST_NM", Cell.str "c")]])
        "sleep" 10 = Except.ok out ∧
      out.rows.length
        = min 10 (DataFrame.mk ["PRDLST_NM"]
            [[("PRDLST_NM", Cell.str "a")], [("PRDLST_NM", Cell.str "b")],
             [("PRDLST_NM", Cell.str "c")]]).rows.length ∧
      out.rows.map (fun r => cellInt (getVal r "score"))
        = (List.insertionSort (fun x y : Int => y ≤ x)
            (needScores
              (DataFrame.mk ["melatonin", "l_theanine", "magnesium"]
                [[("melatonin", Cell.int 1), ("l_theanine", Cell.int 1),
                  ("magnesium", Cell.int 0)],
                 [("melatonin", Cell.int 0), ("l_theanine", Cell.int 0),
                  ("magnesium", Cell.int 1)],
                 [("melatonin", Cell.int 1), ("l_theanine", Cell.int 0),
                  ("magnesium", Cell.int 0)]])
              [("melatonin", 3), ("l_theanine", 2), ("magnesium", 1)])).take 10 :=
  C7_top_n_truncation
    (DataFrame.mk ["melatonin", "l_theanine", "magnesium"]
      [[("melatonin", Cell.int 1), ("l_theanine", Cell.int 1),
        ("magnesium", Cell.int 0)],
       [("melatonin", Cell.int 0), ("l_theanine", Cell.int 0),
        ("magnesium", Cell.int 1)],
       [("melatonin", Cell.int 1), ("l_theanine", Cell.int 0),
        ("magnesium", Cell.int 0)]])
    (DataFrame.mk ["PRDLST_NM"]
      [[("PRDLST_NM", Cell.str "a")], [("PRDLST_NM", Cell.str "b")],
       [("PRDLST_NM", Cell.str "c")]])
    "sleep" [("melatonin", 3), ("l_theanine", 2), ("magnesium", 1)] 10
    (by decide) (by unfold dfWF; decide) (by decide)
